import Mathlib

/-!
Verification of the deterministic gameplay core of a peer-synchronized
first-person-shooter simulation: weapon fire/reload state machine, damage
model, spawn selection with its rolling hash, spawn safety validation, and
player kinematics with AABB collision resolution.

Numeric conventions of the embedding: exact rationals stand for the
JavaScript numbers of the pure combat/spawn arithmetic, integers for ammo
counts, and real numbers for the kinematics (whose source uses cos, sin and
sqrt). JavaScript's Math.round is floor of the argument plus one half, and
the 32-bit wraparound of the bitwise-or-zero idiom is made explicit by a
function reducing an integer into the signed 32-bit range.
-/

/-! ## Shared numeric helpers (clamp, Math.sign, approach, Math.round, int32) -/

/-- Embedding of the source's clamp helper: below the lower bound yields the
lower bound, above the upper bound yields the upper bound, otherwise the
value itself. -/
def clamp {α : Type} [LinearOrder α] (value lo hi : α) : α :=
  if value < lo then lo else if value > hi then hi else value

/-- JavaScript's Math.sign on exact numbers: minus one, zero or one. -/
def jsSign {α : Type} [LinearOrderedField α] (x : α) : α :=
  if x < 0 then -1 else if 0 < x then 1 else 0

/-- Embedding of the source's approach helper: move current toward target by
at most maxDelta, landing exactly on target when it is within reach. -/
def approach {α : Type} [LinearOrderedField α] (current target maxDelta : α) : α :=
  if |target - current| ≤ maxDelta then target
  else current + jsSign (target - current) * maxDelta

/-- JavaScript's Math.round on an exact rational: floor of the value plus
one half. -/
def jsRound (q : ℚ) : ℤ := ⌊q + 1/2⌋

/-- Reduction of an integer into the signed 32-bit range, as the bitwise
or-zero idiom of the source's hash loop performs it. -/
def toInt32 (n : ℤ) : ℤ := (n + 2147483648) % 4294967296 - 2147483648

/-! ## Weapon specs and the weapon state machine (src/game/weapons.ts) -/

/-- The three weapon kinds of the game. -/
inductive WeaponId where
  | assaultRifle
  | shotgun
  | pistol
deriving DecidableEq

/-- Static per-weapon configuration, numeric gameplay fields of the source's
WeaponSpec (label and asset path omitted as non-numeric presentation data). -/
structure WeaponSpec where
  fireIntervalMs : ℚ
  reloadMs : ℚ
  magSize : ℤ
  reserveAmmo : ℤ
  pellets : ℤ
  spread : ℚ
  baseDamage : ℚ
  falloffPerMeter : ℚ
  armorPenetration : ℚ
  headshotMultiplier : ℚ
  automatic : Bool
  recoilPitch : ℚ
  recoilYaw : ℚ
  muzzleFlashIntensity : ℚ
deriving DecidableEq

/-- The WEAPONS table with the source's exact constants. -/
def WEAPONS : WeaponId → WeaponSpec
  | .assaultRifle =>
    { fireIntervalMs := 95, reloadMs := 2100, magSize := 30, reserveAmmo := 120
      pellets := 1, spread := 0.011, baseDamage := 27, falloffPerMeter := 0.012
      armorPenetration := 0.64, headshotMultiplier := 3.8, automatic := true
      recoilPitch := 0.0028, recoilYaw := 0.0019, muzzleFlashIntensity := 2.2 }
  | .shotgun =>
    { fireIntervalMs := 820, reloadMs := 2700, magSize := 8, reserveAmmo := 40
      pellets := 8, spread := 0.055, baseDamage := 12, falloffPerMeter := 0.048
      armorPenetration := 0.42, headshotMultiplier := 1.8, automatic := false
      recoilPitch := 0.011, recoilYaw := 0.006, muzzleFlashIntensity := 2.8 }
  | .pistol =>
    { fireIntervalMs := 210, reloadMs := 1600, magSize := 15, reserveAmmo := 60
      pellets := 1, spread := 0.008, baseDamage := 31, falloffPerMeter := 0.018
      armorPenetration := 0.57, headshotMultiplier := 2.9, automatic := false
      recoilPitch := 0.005, recoilYaw := 0.0025, muzzleFlashIntensity := 1.8 }

/-- Per-weapon mutable runtime state: ammo counts, last shot timestamp and
the nullable reload deadline. -/
structure WeaponRuntimeState where
  weaponId : WeaponId
  ammoInMag : ℤ
  ammoReserve : ℤ
  lastShotAt : ℚ
  reloadingUntil : Option ℚ
deriving DecidableEq

/-- The reason field of a fire attempt's result. -/
inductive FireResultReason where
  | fired
  | cooldown
  | reloading
  | emptyMag
deriving DecidableEq

/-- Result of a fire attempt: the next state, whether a shot happened, and
the reason. -/
structure FireResult where
  next : WeaponRuntimeState
  didFire : Bool
  reason : FireResultReason
deriving DecidableEq

/-- Embedding of tryFireWeapon: reject while a pending reload deadline lies
in the future, then while the fire interval has not elapsed, then on an
empty magazine; otherwise consume one round and record the shot time. -/
def tryFireWeapon (state : WeaponRuntimeState) (now : ℚ) : FireResult :=
  let spec := WEAPONS state.weaponId
  if (match state.reloadingUntil with
      | some u => decide (now < u)
      | none => false) then
    { next := state, didFire := false, reason := .reloading }
  else if now - state.lastShotAt < spec.fireIntervalMs then
    { next := state, didFire := false, reason := .cooldown }
  else if state.ammoInMag ≤ 0 then
    { next := state, didFire := false, reason := .emptyMag }
  else
    { next := { state with ammoInMag := state.ammoInMag - 1, lastShotAt := now }
      didFire := true, reason := .fired }

/-- Embedding of beginReload: a no-op when already reloading, when the
magazine is full, or when the reserve is empty; otherwise only the reload
deadline is set, to now plus the weapon's reload duration. -/
def beginReload (state : WeaponRuntimeState) (now : ℚ) : WeaponRuntimeState :=
  let spec := WEAPONS state.weaponId
  if state.reloadingUntil.isSome then state
  else if state.ammoInMag ≥ spec.magSize ∨ state.ammoReserve ≤ 0 then state
  else { state with reloadingUntil := some (now + spec.reloadMs) }

/-- Embedding of tickReload: a no-op without a reload deadline or before it;
on completion move min(missing, reserve) rounds into the magazine and clear
the deadline. -/
def tickReload (state : WeaponRuntimeState) (now : ℚ) : WeaponRuntimeState :=
  let spec := WEAPONS state.weaponId
  match state.reloadingUntil with
  | none => state
  | some until_ =>
    if now < until_ then state
    else
      let missing := spec.magSize - state.ammoInMag
      let refill := min missing state.ammoReserve
      { state with
          ammoInMag := state.ammoInMag + refill
          ammoReserve := state.ammoReserve - refill
          reloadingUntil := none }

/-! ## Damage model (computeWeaponDamage, applyDamage) -/

/-- Embedding of computeWeaponDamage: distance falloff floored at scale
0.28, headshot multiplier only on headshots, rounded and floored at 1. -/
def computeWeaponDamage (weaponId : WeaponId) (distanceMeters : ℚ) (isHeadshot : Bool) : ℤ :=
  let spec := WEAPONS weaponId
  let minimumScale : ℚ := 0.28
  let scaled := max minimumScale (1 - distanceMeters * spec.falloffPerMeter)
  let headshotScale := if isHeadshot then spec.headshotMultiplier else 1
  max 1 (jsRound (spec.baseDamage * scaled * headshotScale))

/-- A player's health and armor pair. -/
structure DamageState where
  health : ℚ
  armor : ℚ
deriving DecidableEq

/-- Outcome of applying damage: new health and armor, health actually lost,
and the elimination flag. -/
structure DamageResolution where
  health : ℚ
  armor : ℚ
  damageApplied : ℚ
  isEliminated : Bool
deriving DecidableEq

/-- Embedding of applyDamage: armor absorbs a clamped non-penetrating
fraction of the raw damage, capped at the available armor and at 65 percent
of the scaled amount; spent armor converts at 55 percent into spared
health; health and armor floor at zero. -/
def applyDamage (state : DamageState) (rawDamage armorPenetration : ℚ) : DamageResolution :=
  let armorBlockScale := clamp (1 - armorPenetration) 0 1
  let armorToSpend := min state.armor (rawDamage * armorBlockScale * 0.65)
  let healthDamage := rawDamage - armorToSpend * 0.55
  let nextArmor := max 0 (state.armor - armorToSpend)
  let nextHealth := max 0 (state.health - healthDamage)
  { health := nextHealth
    armor := nextArmor
    damageApplied := state.health - nextHealth
    isEliminated := decide (nextHealth ≤ 0) }

/-! ## Rolling hash, spawn selection and team assignment
Strings are embedded as their lists of UTF-16 code units; 58 is the colon.
-/

/-- Embedding of the hashString helper: per character, shift the running
32-bit hash left by five, subtract the hash, add the character code, and
wrap back into the signed 32-bit range. -/
def hashString (input : List ℕ) : ℤ :=
  input.foldl (fun hash c => toInt32 (toInt32 (hash * 32) - hash + (c : ℤ))) 0

/-- The polynomial rolling hash as the specification words it: running hash
times 31 plus the character code, with 32-bit wraparound. Stated from the
spec for comparison with the source-derived hashString. -/
def specPolyHash31 (input : List ℕ) : ℤ :=
  input.foldl (fun hash c => toInt32 (hash * 31 + (c : ℤ))) 0

/-- A static spawn candidate location. -/
structure SpawnPoint where
  x : ℚ
  y : ℚ
  z : ℚ
deriving DecidableEq

/-- The decimal code-unit rendering of a natural number, as JavaScript
template interpolation produces it. -/
def decimalCodes (n : ℕ) : List ℕ :=
  if n = 0 then [48] else ((Nat.digits 10 n).map (fun d => d + 48)).reverse

/-- Embedding of pickSpawnPoint: the origin for an empty list, otherwise the
entry at the absolute value of the hash of matchCode:playerName:wave modulo
the list length. -/
def pickSpawnPoint (matchCode playerName : List ℕ) (spawnPoints : List SpawnPoint)
    (wave : ℕ) : SpawnPoint :=
  if h : spawnPoints.length = 0 then { x := 0, y := 0, z := 0 }
  else
    let seed := matchCode ++ [58] ++ playerName ++ [58] ++ decimalCodes wave
    spawnPoints.get
      ⟨(hashString seed).natAbs % spawnPoints.length,
       Nat.mod_lt _ (Nat.pos_of_ne_zero h)⟩

/-- The two fixed team names. -/
inductive TeamName where
  | counter
  | terror
deriving DecidableEq

/-- The TEAM_NAMES table. -/
def TEAM_NAMES : List TeamName := [.counter, .terror]

/-- Embedding of pickTeam with its inline duplicate of the rolling hash
loop over matchCode:playerName, indexing TEAM_NAMES by the absolute value
of the hash modulo the list length. -/
def pickTeam (playerName matchCode : List ℕ) : TeamName :=
  let merged := matchCode ++ [58] ++ playerName
  let hash := merged.foldl (fun h c => toInt32 (toInt32 (h * 32) - h + (c : ℤ))) 0
  TEAM_NAMES.get ⟨hash.natAbs % TEAM_NAMES.length, Nat.mod_lt _ (by decide)⟩

/-! ## Spawn safety (isSpawnSafe, resolveSpawnPoint) -/

/-- A floating-point triple, generic in its numeric carrier. -/
structure Vec3 (α : Type) where
  x : α
  y : α
  z : α
deriving DecidableEq

/-- An axis-aligned bounding box standing for one static obstacle. -/
structure Aabb (α : Type) where
  min : Vec3 α
  max : Vec3 α
deriving DecidableEq

/-- Player standing height, shared by kinematics and spawn validation. -/
def PLAYER_HEIGHT_STANDING : ℚ := 1.72

/-- Player crouching height. -/
def PLAYER_HEIGHT_CROUCHING : ℚ := 1.24

/-- Embedding of isSpawnSafe: for every obstacle whose vertical range meets
the band from the spawn's y to y plus standing height, the spawn is safe
only when the radius-0.65 footprint is separated from the obstacle on the
x or z axis. -/
def isSpawnSafe (obstacles : List (Aabb ℚ)) (spawn : SpawnPoint) : Bool :=
  let radius : ℚ := 0.65
  let feetY := spawn.y
  let headY := spawn.y + PLAYER_HEIGHT_STANDING
  obstacles.all fun obstacle =>
    if feetY < obstacle.max.y ∧ headY > obstacle.min.y then
      decide (spawn.x + radius ≤ obstacle.min.x ∨ spawn.x - radius ≥ obstacle.max.x ∨
        spawn.z + radius ≤ obstacle.min.z ∨ spawn.z - radius ≥ obstacle.max.z)
    else true

/-- Embedding of resolveSpawnPoint: the preferred point when safe, else the
first safe point of the list in order, else the preferred point. -/
def resolveSpawnPoint (obstacles : List (Aabb ℚ)) (spawnPoints : List SpawnPoint)
    (preferred : SpawnPoint) : SpawnPoint :=
  if isSpawnSafe obstacles preferred then preferred
  else
    match spawnPoints.find? (fun spawn => isSpawnSafe obstacles spawn) with
    | some spawn => spawn
    | none => preferred

/-- Stated from the spec for comparison: the spawn footprint as a cylinder
of radius 0.65 from the spawn's y to y plus standing height, 3D-overlapping
an obstacle's box when the vertical ranges meet and the closest point of
the box's footprint rectangle lies within the radius of the axis. -/
def cylinderOverlapsAabb (spawn : SpawnPoint) (obstacle : Aabb ℚ) : Prop :=
  let nearX := clamp spawn.x obstacle.min.x obstacle.max.x
  let nearZ := clamp spawn.z obstacle.min.z obstacle.max.z
  spawn.y < obstacle.max.y ∧ spawn.y + PLAYER_HEIGHT_STANDING > obstacle.min.y ∧
    (spawn.x - nearX) ^ 2 + (spawn.z - nearZ) ^ 2 ≤ (0.65 : ℚ) ^ 2

/-- The footprint overlap the code actually tests: a square of half-width
0.65 around the spawn meeting the obstacle's footprint rectangle, with the
vertical band from the spawn's y to y plus standing height meeting the
obstacle's y range. -/
def squareFootprintOverlapsAabb (spawn : SpawnPoint) (obstacle : Aabb ℚ) : Prop :=
  spawn.y < obstacle.max.y ∧ spawn.y + PLAYER_HEIGHT_STANDING > obstacle.min.y ∧
    spawn.x + 0.65 > obstacle.min.x ∧ spawn.x - 0.65 < obstacle.max.x ∧
    spawn.z + 0.65 > obstacle.min.z ∧ spawn.z - 0.65 < obstacle.max.z

/-! ## Kinematics and collision resolution (stepPlayerMovement) -/

/-- Player collision radius. -/
noncomputable def PLAYER_RADIUS : ℝ := 0.34

/-- Walk speed. -/
noncomputable def WALK_SPEED : ℝ := 5.6

/-- Sprint speed. -/
noncomputable def SPRINT_SPEED : ℝ := 8.8

/-- Crouch speed. -/
noncomputable def CROUCH_SPEED : ℝ := 3.2

/-- Horizontal acceleration rate. -/
noncomputable def ACCELERATION : ℝ := 48

/-- Horizontal friction rate. -/
noncomputable def FRICTION : ℝ := 32

/-- Gravitational deceleration. -/
noncomputable def GRAVITY : ℝ := 26

/-- Fixed upward jump velocity. -/
noncomputable def JUMP_VELOCITY : ℝ := 8.9

/-- Snapshot of the discrete control intents. -/
structure InputState where
  moveForward : Bool
  moveBackward : Bool
  moveLeft : Bool
  moveRight : Bool
  sprint : Bool
  crouch : Bool
  jump : Bool
  firing : Bool

/-- One participant's physical state. -/
structure PlayerBodyState where
  position : Vec3 ℝ
  velocity : Vec3 ℝ
  yaw : ℝ
  pitch : ℝ
  grounded : Bool
  crouching : Bool

/-- The arena's rectangular bounds and floor plane. -/
structure ArenaBounds where
  minX : ℝ
  maxX : ℝ
  minZ : ℝ
  maxZ : ℝ
  floorY : ℝ

/-- JavaScript's Number conversion of a boolean. -/
def boolToNum (b : Bool) : ℝ := if b then 1 else 0

/-- The tick's movement speed: crouch speed while crouching, sprint speed
while sprinting strictly forward, walk speed otherwise. -/
noncomputable def movementSpeed (input : InputState) : ℝ :=
  if input.crouch then CROUCH_SPEED
  else if input.sprint && input.moveForward && !input.moveBackward then SPRINT_SPEED
  else WALK_SPEED

/-- Local strafe intent mapped to world space by the camera yaw, x axis. -/
noncomputable def wishWorldX (state : PlayerBodyState) (input : InputState) : ℝ :=
  (boolToNum input.moveRight - boolToNum input.moveLeft) * Real.cos state.yaw -
    (boolToNum input.moveForward - boolToNum input.moveBackward) * Real.sin state.yaw

/-- Local strafe intent mapped to world space by the camera yaw, z axis. -/
noncomputable def wishWorldZ (state : PlayerBodyState) (input : InputState) : ℝ :=
  -(boolToNum input.moveRight - boolToNum input.moveLeft) * Real.sin state.yaw -
    (boolToNum input.moveForward - boolToNum input.moveBackward) * Real.cos state.yaw

/-- Math.hypot of the world-space wish direction. -/
noncomputable def wishLength (state : PlayerBodyState) (input : InputState) : ℝ :=
  Real.sqrt (wishWorldX state input ^ 2 + wishWorldZ state input ^ 2)

/-- The tick's next horizontal velocity on the x axis: accelerate toward the
normalized wish direction times the speed under input, decay toward zero
under friction otherwise. -/
noncomputable def nextVelocityX (state : PlayerBodyState) (input : InputState) (dt : ℝ) : ℝ :=
  if wishLength state input > 0 then
    approach state.velocity.x
      (wishWorldX state input / wishLength state input * movementSpeed input)
      (ACCELERATION * dt)
  else approach state.velocity.x 0 (FRICTION * dt)

/-- The tick's next horizontal velocity on the z axis. -/
noncomputable def nextVelocityZ (state : PlayerBodyState) (input : InputState) (dt : ℝ) : ℝ :=
  if wishLength state input > 0 then
    approach state.velocity.z
      (wishWorldZ state input / wishLength state input * movementSpeed input)
      (ACCELERATION * dt)
  else approach state.velocity.z 0 (FRICTION * dt)

/-- One obstacle's step of the collision loop: skip obstacles whose y range
misses the player band and positions outside the radius-inflated footprint;
otherwise push the position to the nearest inflated face and clamp the
velocity component opposing the push. -/
noncomputable def resolveObstacle (playerHeight : ℝ) (pv : Vec3 ℝ × Vec3 ℝ)
    (obstacle : Aabb ℝ) : Vec3 ℝ × Vec3 ℝ :=
  let p := pv.1
  let v := pv.2
  let playerBottom := p.y
  let playerTop := playerBottom + playerHeight
  if playerBottom < obstacle.max.y ∧ playerTop > obstacle.min.y then
    let expandedMinX := obstacle.min.x - PLAYER_RADIUS
    let expandedMaxX := obstacle.max.x + PLAYER_RADIUS
    let expandedMinZ := obstacle.min.z - PLAYER_RADIUS
    let expandedMaxZ := obstacle.max.z + PLAYER_RADIUS
    if p.x ≤ expandedMinX ∨ p.x ≥ expandedMaxX ∨ p.z ≤ expandedMinZ ∨ p.z ≥ expandedMaxZ then
      pv
    else
      let distanceToLeft := |p.x - expandedMinX|
      let distanceToRight := |expandedMaxX - p.x|
      let distanceToBack := |p.z - expandedMinZ|
      let distanceToFront := |expandedMaxZ - p.z|
      let minDistance :=
        min (min distanceToLeft distanceToRight) (min distanceToBack distanceToFront)
      if minDistance = distanceToLeft then
        ({ p with x := expandedMinX }, { v with x := min v.x 0 })
      else if minDistance = distanceToRight then
        ({ p with x := expandedMaxX }, { v with x := max v.x 0 })
      else if minDistance = distanceToBack then
        ({ p with z := expandedMinZ }, { v with z := min v.z 0 })
      else
        ({ p with z := expandedMaxZ }, { v with z := max v.z 0 })
  else pv

/-- Embedding of resolveHorizontalCollisions: fold the per-obstacle push-out
over the obstacle list, starting from the integrated position and velocity. -/
noncomputable def resolveHorizontalCollisions (position velocity : Vec3 ℝ)
    (playerHeight : ℝ) (obstacles : List (Aabb ℝ)) : Vec3 ℝ × Vec3 ℝ :=
  obstacles.foldl (resolveObstacle playerHeight) (position, velocity)

/-- Embedding of stepPlayerMovement: horizontal acceleration or friction,
jump or gravity, semi-implicit integration clamped to the arena bounds
inset by the player radius, floor snapping, then obstacle collision
resolution; yaw and pitch pass through untouched. -/
noncomputable def stepPlayerMovement (state : PlayerBodyState) (input : InputState)
    (dt : ℝ) (obstacles : List (Aabb ℝ)) (bounds : ArenaBounds) : PlayerBodyState :=
  let desiredCrouch := input.crouch
  let velX := nextVelocityX state input dt
  let velZ := nextVelocityZ state input dt
  let jumped := state.grounded && input.jump && !desiredCrouch
  let velY0 := if jumped then JUMP_VELOCITY else state.velocity.y - GRAVITY * dt
  let grounded0 := if jumped then false else state.grounded
  let posX := clamp (state.position.x + velX * dt)
    (bounds.minX + PLAYER_RADIUS) (bounds.maxX - PLAYER_RADIUS)
  let posY0 := state.position.y + velY0 * dt
  let posZ := clamp (state.position.z + velZ * dt)
    (bounds.minZ + PLAYER_RADIUS) (bounds.maxZ - PLAYER_RADIUS)
  let snapped := posY0 < bounds.floorY
  let posY := if snapped then bounds.floorY else posY0
  let velY := if snapped then 0 else velY0
  let nextGrounded := if snapped then true else grounded0
  let playerHeight : ℝ :=
    if desiredCrouch then (PLAYER_HEIGHT_CROUCHING : ℚ) else (PLAYER_HEIGHT_STANDING : ℚ)
  let resolved := resolveHorizontalCollisions
    { x := posX, y := posY, z := posZ } { x := velX, y := velY, z := velZ }
    playerHeight obstacles
  { state with
      position := resolved.1
      velocity := resolved.2
      grounded := nextGrounded
      crouching := desiredCrouch }

/-- The player's vertical band from the position's y over the given height
meets the obstacle's y range. -/
def overlapsVertically (obstacle : Aabb ℝ) (position : Vec3 ℝ) (playerHeight : ℝ) : Prop :=
  position.y < obstacle.max.y ∧ position.y + playerHeight > obstacle.min.y

/-- The position lies strictly inside the obstacle's footprint inflated by
the player collision radius on the x and z axes. -/
def insideInflatedFootprint (obstacle : Aabb ℝ) (position : Vec3 ℝ) : Prop :=
  obstacle.min.x - PLAYER_RADIUS < position.x ∧ position.x < obstacle.max.x + PLAYER_RADIUS ∧
    obstacle.min.z - PLAYER_RADIUS < position.z ∧ position.z < obstacle.max.z + PLAYER_RADIUS

/-! ## Helper lemmas -/

/-- One step of the source hash loop agrees with the times-31 formulation. -/
theorem toInt32_step_eq (h c : ℤ) :
    toInt32 (toInt32 (h * 32) - h + c) = toInt32 (h * 31 + c) := by
  unfold toInt32
  omega

/-- The whole source hash agrees with the times-31 fold from any start. -/
theorem hash_foldl_eq (input : List ℕ) : ∀ a : ℤ,
    input.foldl (fun hash c => toInt32 (toInt32 (hash * 32) - hash + (c : ℤ))) a =
      input.foldl (fun hash c => toInt32 (hash * 31 + (c : ℤ))) a := by
  induction input with
  | nil => intro a; rfl
  | cons c rest ih => intro a; simp only [List.foldl_cons, toInt32_step_eq, ih]

/-! ## Claim theorems -/

/-- C1: applyDamage spends min(armor, rawDamage * clamp(1 - armorPenetration,
0, 1) * 0.65) armor and removes rawDamage - armorToSpend * 0.55 health, both
floored at 0; damageApplied equals previousHealth - newHealth; isEliminated
holds exactly when the new health is 0; with armorPenetration = 1 a
nonnegative armor is unchanged; returned health and armor are never
negative. -/
theorem applyDamage_spec (state : DamageState) (rawDamage armorPenetration : ℚ) :
    let armorToSpend := min state.armor (rawDamage * clamp (1 - armorPenetration) 0 1 * 0.65)
    let result := applyDamage state rawDamage armorPenetration
    result.armor = max 0 (state.armor - armorToSpend) ∧
    result.health = max 0 (state.health - (rawDamage - armorToSpend * 0.55)) ∧
    result.damageApplied = state.health - result.health ∧
    (result.isEliminated = true ↔ result.health = 0) ∧
    (armorPenetration = 1 → 0 ≤ state.armor → result.armor = state.armor) ∧
    0 ≤ result.health ∧ 0 ≤ result.armor := by
  refine ⟨rfl, rfl, rfl, ?_, ?_, le_max_left 0 _, le_max_left 0 _⟩
  · simp only [applyDamage, decide_eq_true_eq]
    constructor
    · intro hle
      exact le_antisymm hle (le_max_left 0 _)
    · intro heq
      exact heq.le
  · intro hpen harm
    subst hpen
    simp only [applyDamage]
    rw [show clamp (1 - (1 : ℚ)) 0 1 = 0 by norm_num [clamp]]
    rw [mul_zero, zero_mul, min_eq_right harm, sub_zero, max_eq_right harm]


/-- The reload guard of tryFireWeapon read as a proposition. -/
theorem tryFire_guard_iff (state : WeaponRuntimeState) (now : ℚ) :
    ((match state.reloadingUntil with
      | some u => decide (now < u)
      | none => false) = true) ↔ ∃ u, state.reloadingUntil = some u ∧ now < u := by
  rcases hr : state.reloadingUntil with _ | u <;> simp

/-- C2: tryFireWeapon fails with reason reloading when a reload deadline is
set and lies in the future, else with cooldown when the fire interval has
not elapsed since the last shot, else with empty-mag when the magazine is
empty, and otherwise fires, decrementing the magazine by exactly one and
recording the shot time while leaving reserve and reload deadline
unchanged; every failing call returns the input state unchanged and the
magazine count never becomes negative. -/
theorem tryFireWeapon_spec (state : WeaponRuntimeState) (now : ℚ) :
    let reloadBlocked := ∃ u, state.reloadingUntil = some u ∧ now < u
    let cooldownBlocked := now - state.lastShotAt < (WEAPONS state.weaponId).fireIntervalMs
    let result := tryFireWeapon state now
    (reloadBlocked → result = ⟨state, false, .reloading⟩) ∧
    (¬reloadBlocked → cooldownBlocked → result = ⟨state, false, .cooldown⟩) ∧
    (¬reloadBlocked → ¬cooldownBlocked → state.ammoInMag = 0 →
      result = ⟨state, false, .emptyMag⟩) ∧
    (¬reloadBlocked → ¬cooldownBlocked → 0 ≤ state.ammoInMag → state.ammoInMag ≠ 0 →
      result = ⟨{ state with ammoInMag := state.ammoInMag - 1, lastShotAt := now },
        true, .fired⟩) ∧
    (result.didFire = false → result.next = state) ∧
    (0 ≤ state.ammoInMag → 0 ≤ result.next.ammoInMag) := by
  intro reloadBlocked cooldownBlocked result
  by_cases hR : reloadBlocked
  · have hres : result = ⟨state, false, .reloading⟩ := by
      show tryFireWeapon state now = _
      unfold tryFireWeapon
      rw [if_pos ((tryFire_guard_iff state now).mpr hR)]
    rw [hres]
    exact ⟨fun _ => rfl, fun hnr => absurd hR hnr, fun hnr => absurd hR hnr,
      fun hnr => absurd hR hnr, fun _ => rfl, fun h => h⟩
  · have hguard : ¬((match state.reloadingUntil with
        | some u => decide (now < u)
        | none => false) = true) := fun h => hR ((tryFire_guard_iff state now).mp h)
    by_cases hC : cooldownBlocked
    · have hres : result = ⟨state, false, .cooldown⟩ := by
        show tryFireWeapon state now = _
        unfold tryFireWeapon
        rw [if_neg hguard, if_pos hC]
      rw [hres]
      exact ⟨fun hr => absurd hr hR, fun _ _ => rfl, fun _ hnc => absurd hC hnc,
        fun _ hnc => absurd hC hnc, fun _ => rfl, fun h => h⟩
    · by_cases hE : state.ammoInMag ≤ 0
      · have hres : result = ⟨state, false, .emptyMag⟩ := by
          show tryFireWeapon state now = _
          unfold tryFireWeapon
          rw [if_neg hguard, if_neg hC, if_pos hE]
        rw [hres]
        exact ⟨fun hr => absurd hr hR, fun _ hc => absurd hc hC, fun _ _ _ => rfl,
          fun _ _ h0 hne => absurd (by omega) hne, fun _ => rfl, fun h => h⟩
      · have hres : result =
            ⟨{ state with ammoInMag := state.ammoInMag - 1, lastShotAt := now },
              true, .fired⟩ := by
          show tryFireWeapon state now = _
          unfold tryFireWeapon
          rw [if_neg hguard, if_neg hC, if_neg hE]
        rw [hres]
        refine ⟨fun hr => absurd hr hR, fun _ hc => absurd hc hC,
          fun _ _ h0 => absurd h0 (by omega), fun _ _ _ _ => rfl, ?_, fun _ => by
            show 0 ≤ state.ammoInMag - 1
            omega⟩
        intro hdf
        exact absurd hdf (by simp)

/-- C9: the team-assignment hash computed inline by pickTeam is the same
function as the hashString helper used by pickSpawnPoint, and a player's
team is exactly TEAM_NAMES indexed by the absolute value of the hash of
matchCode:playerName modulo 2, deterministically from the string inputs. -/
theorem pickTeam_hash_agreement :
    (∀ input : List ℕ,
      input.foldl (fun h c => toInt32 (toInt32 (h * 32) - h + (c : ℤ))) 0 = hashString input) ∧
    ∀ playerName matchCode : List ℕ,
      pickTeam playerName matchCode =
        TEAM_NAMES.getD
          ((hashString (matchCode ++ [58] ++ playerName)).natAbs % 2) TeamName.counter := by
  refine ⟨fun input => rfl, ?_⟩
  intro playerName matchCode
  have h2 : ∀ (i : ℕ) (h : i < TEAM_NAMES.length),
      TEAM_NAMES.get ⟨i, h⟩ = TEAM_NAMES.getD i TeamName.counter := by
    intro i h
    match i, h with
    | 0, _ => rfl
    | 1, _ => rfl
  exact h2 _ _

/-- C6: pickSpawnPoint is deterministic, and on a non-empty list it returns
the list entry at index abs(hash) mod length, where the hash is the
32-bit-wrapped times-31 rolling hash of matchCode:playerName:wave; in
particular the result is always an element of the supplied list, for every
wave. -/
theorem pickSpawnPoint_spec (matchCode playerName : List ℕ)
    (spawnPoints : List SpawnPoint) (wave : ℕ) :
    (∀ input : List ℕ, hashString input = specPolyHash31 input) ∧
    pickSpawnPoint matchCode playerName spawnPoints wave =
      pickSpawnPoint matchCode playerName spawnPoints wave ∧
    (spawnPoints.length ≠ 0 →
      pickSpawnPoint matchCode playerName spawnPoints wave =
        spawnPoints.getD
          ((specPolyHash31
              (matchCode ++ [58] ++ playerName ++ [58] ++ decimalCodes wave)).natAbs %
            spawnPoints.length) { x := 0, y := 0, z := 0 } ∧
      pickSpawnPoint matchCode playerName spawnPoints wave ∈ spawnPoints) := by
  refine ⟨fun input => hash_foldl_eq input 0, rfl, fun h => ?_⟩
  simp only [pickSpawnPoint, dif_neg h]
  constructor
  · rw [show specPolyHash31 (matchCode ++ [58] ++ playerName ++ [58] ++ decimalCodes wave) =
        hashString (matchCode ++ [58] ++ playerName ++ [58] ++ decimalCodes wave) from
      (hash_foldl_eq _ 0).symm]
    exact (List.getD_eq_getElem spawnPoints _ _).symm
  · exact List.get_mem spawnPoints _ _

/-- C10: stepPlayerMovement returns a state whose yaw and pitch are the
input state's yaw and pitch; only position, velocity, grounded and
crouching can change. -/
theorem stepPlayerMovement_preserves_view_angles (state : PlayerBodyState)
    (input : InputState) (dt : ℝ) (obstacles : List (Aabb ℝ)) (bounds : ArenaBounds) :
    (stepPlayerMovement state input dt obstacles bounds).yaw = state.yaw ∧
    (stepPlayerMovement state input dt obstacles bounds).pitch = state.pitch :=
  ⟨rfl, rfl⟩

/-- Headshot damage strictly exceeds body damage whenever the weapon's
constants leave at least one full point of rounded damage between them at
the falloff floor. -/
theorem computeWeaponDamage_headshot_lt (w : WeaponId) (d : ℚ)
    (hhalf : 1/2 ≤ (WEAPONS w).baseDamage * 0.28)
    (hone : 1 ≤ (WEAPONS w).headshotMultiplier)
    (hgap : 1 ≤ (WEAPONS w).baseDamage * 0.28 * ((WEAPONS w).headshotMultiplier - 1)) :
    computeWeaponDamage w d false < computeWeaponDamage w d true := by
  simp only [computeWeaponDamage, reduceIte]
  rw [show (if (false : Bool) = true then (WEAPONS w).headshotMultiplier else 1) = (1 : ℚ) from
    rfl]
  generalize hgen : max (0.28 : ℚ) (1 - d * (WEAPONS w).falloffPerMeter) = s
  have hs : (0.28 : ℚ) ≤ s := hgen ▸ le_max_left _ _
  have hB0 : (0 : ℚ) ≤ (WEAPONS w).baseDamage := by linarith
  have hBs : (WEAPONS w).baseDamage * 0.28 ≤ (WEAPONS w).baseDamage * s :=
    mul_le_mul_of_nonneg_left hs hB0
  have hfac : (0 : ℚ) ≤ (WEAPONS w).baseDamage * ((WEAPONS w).headshotMultiplier - 1) :=
    mul_nonneg hB0 (by linarith)
  have hmul : (WEAPONS w).baseDamage * ((WEAPONS w).headshotMultiplier - 1) * 0.28 ≤
      (WEAPONS w).baseDamage * ((WEAPONS w).headshotMultiplier - 1) * s := by
    exact mul_le_mul_of_nonneg_left hs hfac
  have hxy : (WEAPONS w).baseDamage * s * 1 + 1 ≤
      (WEAPONS w).baseDamage * s * (WEAPONS w).headshotMultiplier := by nlinarith [hmul, hgap]
  have hr1 : 1 ≤ jsRound ((WEAPONS w).baseDamage * s * 1) := by
    rw [jsRound, Int.le_floor]
    push_cast
    linarith [hhalf, hBs]
  have hr2 : jsRound ((WEAPONS w).baseDamage * s * 1) + 1 ≤
      jsRound ((WEAPONS w).baseDamage * s * (WEAPONS w).headshotMultiplier) := by
    rw [jsRound, jsRound, show ⌊(WEAPONS w).baseDamage * s * 1 + 1/2⌋ + 1 =
      ⌊(WEAPONS w).baseDamage * s * 1 + 1/2 + 1⌋ from (Int.floor_add_one _).symm]
    exact Int.floor_le_floor (by linarith)
  rw [max_eq_right hr1, max_eq_right (by omega)]
  omega

/-- C3: computeWeaponDamage equals max(1, round(baseDamage * max(0.28,
1 - d * falloffPerMeter) * headshotMultiplierOrOne)); the result is never
below 1; at identical distance the headshot result is at least the
non-headshot result, and strictly greater for every weapon, each of whose
headshot multipliers exceeds 1. -/
theorem computeWeaponDamage_spec (weaponId : WeaponId) (distanceMeters : ℚ)
    (isHeadshot : Bool) :
    (computeWeaponDamage weaponId distanceMeters isHeadshot =
      max 1 (jsRound ((WEAPONS weaponId).baseDamage *
        max 0.28 (1 - distanceMeters * (WEAPONS weaponId).falloffPerMeter) *
        (if isHeadshot then (WEAPONS weaponId).headshotMultiplier else 1)))) ∧
    1 ≤ computeWeaponDamage weaponId distanceMeters isHeadshot ∧
    (0 ≤ distanceMeters →
      computeWeaponDamage weaponId distanceMeters false ≤
        computeWeaponDamage weaponId distanceMeters true) ∧
    1 < (WEAPONS weaponId).headshotMultiplier ∧
    (0 ≤ distanceMeters →
      computeWeaponDamage weaponId distanceMeters false <
        computeWeaponDamage weaponId distanceMeters true) := by
  have hstrict : computeWeaponDamage weaponId distanceMeters false <
      computeWeaponDamage weaponId distanceMeters true := by
    apply computeWeaponDamage_headshot_lt
    all_goals cases weaponId <;> norm_num [WEAPONS]
  refine ⟨rfl, le_max_left 1 _, fun _ => le_of_lt hstrict, ?_, fun _ => hstrict⟩
  cases weaponId <;> norm_num [WEAPONS]

/-- C4 counterexample: an assault rifle (magazine size 30) holding 1 round
with 20 in reserve does not end a completed reload with a full magazine;
the code refills only min(30 - 1, 20) = 20 rounds, ending at 21 with an
empty reserve, where the claim predicts magSize = 30 rounds and reserve
20 - 29 = -9. -/
theorem reload_full_magazine_counterexample :
    let initial : WeaponRuntimeState :=
      { weaponId := .assaultRifle, ammoInMag := 1, ammoReserve := 20
        lastShotAt := 0, reloadingUntil := none }
    let completed :=
      tickReload (beginReload initial 0) ((WEAPONS WeaponId.assaultRifle).reloadMs)
    completed.ammoInMag = 21 ∧ (WEAPONS WeaponId.assaultRifle).magSize = 30 ∧
    completed.ammoInMag ≠ (WEAPONS WeaponId.assaultRifle).magSize ∧
    completed.ammoReserve = 0 ∧ completed.reloadingUntil = none := by
  norm_num [beginReload, tickReload, WEAPONS]

/-- C4 (amended): beginReload is unchanged when already reloading, when the
magazine is full, or when the reserve is empty, and otherwise only sets the
reload deadline to now plus reloadMs; tickReload is unchanged without a
deadline or before it, and on completion moves exactly min(magSize -
ammoInMag, ammoReserve) rounds from reserve to magazine and clears the
deadline; the reserve never becomes negative; and a weapon with ammoInMag
= 1, ammoReserve = 20 and 1 ≤ magSize ≤ 21 ends a completed reload with a
full magazine and reserve 20 - (magSize - 1). -/
theorem reload_spec (state : WeaponRuntimeState) (now : ℚ) :
    (state.reloadingUntil ≠ none → beginReload state now = state) ∧
    (state.reloadingUntil = none →
      state.ammoInMag ≥ (WEAPONS state.weaponId).magSize → beginReload state now = state) ∧
    (state.reloadingUntil = none → state.ammoReserve ≤ 0 → beginReload state now = state) ∧
    (state.reloadingUntil = none → state.ammoInMag < (WEAPONS state.weaponId).magSize →
      0 < state.ammoReserve →
      beginReload state now =
        { state with reloadingUntil := some (now + (WEAPONS state.weaponId).reloadMs) }) ∧
    (state.reloadingUntil = none → tickReload state now = state) ∧
    (∀ u, state.reloadingUntil = some u → now < u → tickReload state now = state) ∧
    (∀ u, state.reloadingUntil = some u → ¬now < u →
      tickReload state now =
        { state with
            ammoInMag := state.ammoInMag +
              min ((WEAPONS state.weaponId).magSize - state.ammoInMag) state.ammoReserve
            ammoReserve := state.ammoReserve -
              min ((WEAPONS state.weaponId).magSize - state.ammoInMag) state.ammoReserve
            reloadingUntil := none }) ∧
    (0 ≤ state.ammoReserve → 0 ≤ (tickReload state now).ammoReserve) ∧
    (0 ≤ state.ammoReserve → 0 ≤ (beginReload state now).ammoReserve) ∧
    (state.ammoInMag = 1 → state.ammoReserve = 20 → state.reloadingUntil = none →
      1 ≤ (WEAPONS state.weaponId).magSize → (WEAPONS state.weaponId).magSize - 1 ≤ 20 →
      (tickReload (beginReload state now) (now + (WEAPONS state.weaponId).reloadMs)).ammoInMag =
        (WEAPONS state.weaponId).magSize ∧
      (tickReload (beginReload state now)
          (now + (WEAPONS state.weaponId).reloadMs)).ammoReserve =
        20 - ((WEAPONS state.weaponId).magSize - 1) ∧
      (tickReload (beginReload state now)
          (now + (WEAPONS state.weaponId).reloadMs)).reloadingUntil = none) := by
  refine ⟨?_, ?_, ?_, ?_, ?_, ?_, ?_, ?_, ?_, ?_⟩
  · intro h
    simp only [beginReload]
    rw [if_pos (Option.ne_none_iff_isSome.mp h)]
  · intro h hm
    simp only [beginReload, h, Option.isSome_none, Bool.false_eq_true, if_false]
    rw [if_pos (Or.inl hm)]
  · intro h hra
    simp only [beginReload, h, Option.isSome_none, Bool.false_eq_true, if_false]
    rw [if_pos (Or.inr hra)]
  · intro h hm hra
    simp only [beginReload, h, Option.isSome_none, Bool.false_eq_true, if_false]
    rw [if_neg (by omega : ¬(state.ammoInMag ≥ (WEAPONS state.weaponId).magSize ∨
      state.ammoReserve ≤ 0))]
  · intro h
    simp only [tickReload, h]
  · intro u hu hlt
    simp only [tickReload, hu]
    rw [if_pos hlt]
  · intro u hu hlt
    simp only [tickReload, hu]
    rw [if_neg hlt]
  · intro h
    rcases hru : state.reloadingUntil with _ | u
    · simpa only [tickReload, hru] using h
    · simp only [tickReload, hru]
      split_ifs with hlt
      · exact h
      · simp only
        omega
  · intro h
    simp only [beginReload]
    split_ifs <;> exact h
  · intro h1 h20 hnone hms1 hcap
    by_cases hfull : (WEAPONS state.weaponId).magSize ≤ 1
    · have hb : beginReload state now = state := by
        simp only [beginReload, hnone, Option.isSome_none, Bool.false_eq_true, if_false]
        rw [if_pos (Or.inl (by omega))]
      rw [hb]
      have ht : tickReload state (now + (WEAPONS state.weaponId).reloadMs) = state := by
        simp only [tickReload, hnone]
      rw [ht]
      refine ⟨by omega, by omega, hnone⟩
    · have hb : beginReload state now =
          { state with reloadingUntil := some (now + (WEAPONS state.weaponId).reloadMs) } := by
        simp only [beginReload, hnone, Option.isSome_none, Bool.false_eq_true, if_false]
        rw [if_neg (by omega : ¬(state.ammoInMag ≥ (WEAPONS state.weaponId).magSize ∨
          state.ammoReserve ≤ 0))]
      rw [hb]
      simp only [tickReload]
      rw [if_neg (lt_irrefl _)]
      refine ⟨by simp only; omega, by simp only; omega, rfl⟩

/-- C7 counterexample: at spawn (0,0,0) with an obstacle box from
(1/2, 0, 1/2) to (1, 1, 1), the code reports the spawn unsafe, yet a
cylinder of radius 0.65 around the spawn axis misses the box: the closest
footprint point (1/2, 1/2) lies at squared distance 1/2, beyond the squared
radius 0.4225, so the code's test is a square footprint, not the claimed
cylinder. -/
theorem spawnSafety_cylinder_counterexample :
    let spawn : SpawnPoint := { x := 0, y := 0, z := 0 }
    let obstacle : Aabb ℚ :=
      { min := { x := 1/2, y := 0, z := 1/2 }, max := { x := 1, y := 1, z := 1 } }
    isSpawnSafe [obstacle] spawn = false ∧ ¬ cylinderOverlapsAabb spawn obstacle := by
  constructor
  · norm_num [isSpawnSafe, PLAYER_HEIGHT_STANDING]
  · norm_num [cylinderOverlapsAabb, clamp, PLAYER_HEIGHT_STANDING]

/-- C7 (amended): isSpawnSafe reports a spawn unsafe exactly when the
square footprint of half-width 0.65 around the spawn, over the vertical
band from the spawn's y to y plus standing height, overlaps some obstacle's
AABB; resolveSpawnPoint returns the preferred point when safe, otherwise
the first safe point of a linear scan of the spawn list, otherwise the
originally preferred point. -/
theorem spawnSafety_spec (obstacles : List (Aabb ℚ)) (spawnPoints : List SpawnPoint)
    (preferred : SpawnPoint) :
    (isSpawnSafe obstacles preferred = false ↔
      ∃ o ∈ obstacles, squareFootprintOverlapsAabb preferred o) ∧
    (isSpawnSafe obstacles preferred = true →
      resolveSpawnPoint obstacles spawnPoints preferred = preferred) ∧
    (isSpawnSafe obstacles preferred = false →
      ∀ p, spawnPoints.find? (fun q => isSpawnSafe obstacles q) = some p →
        resolveSpawnPoint obstacles spawnPoints preferred = p) ∧
    (isSpawnSafe obstacles preferred = false →
      spawnPoints.find? (fun q => isSpawnSafe obstacles q) = none →
      resolveSpawnPoint obstacles spawnPoints preferred = preferred) := by
  have hobs : ∀ o : Aabb ℚ,
      ((if preferred.y < o.max.y ∧ preferred.y + PLAYER_HEIGHT_STANDING > o.min.y then
          decide (preferred.x + 0.65 ≤ o.min.x ∨ preferred.x - 0.65 ≥ o.max.x ∨
            preferred.z + 0.65 ≤ o.min.z ∨ preferred.z - 0.65 ≥ o.max.z)
        else true) = false) ↔ squareFootprintOverlapsAabb preferred o := by
    intro o
    split_ifs with hv
    · simp only [decide_eq_false_iff_not, not_or, not_le, squareFootprintOverlapsAabb]
      exact ⟨fun h => ⟨hv.1, hv.2, h.1, h.2.1, h.2.2.1, h.2.2.2⟩,
        fun h => ⟨h.2.2.1, h.2.2.2.1, h.2.2.2.2.1, h.2.2.2.2.2⟩⟩
    · exact iff_of_false (by simp) fun hsq => hv ⟨hsq.1, hsq.2.1⟩
  refine ⟨?_, ?_, ?_, ?_⟩
  · simp only [isSpawnSafe, List.all_eq_false, Bool.not_eq_true]
    exact exists_congr fun o => and_congr_right fun _ => hobs o
  · intro h
    simp only [resolveSpawnPoint, h, if_true]
  · intro h p hf
    simp only [resolveSpawnPoint, h, Bool.false_eq_true, if_false, hf]
  · intro h hf
    simp only [resolveSpawnPoint, h, Bool.false_eq_true, if_false, hf]

/-- The per-obstacle resolver never changes the vertical coordinate. -/
theorem resolveObstacle_y (playerHeight : ℝ) (pv : Vec3 ℝ × Vec3 ℝ) (o : Aabb ℝ) :
    (resolveObstacle playerHeight pv o).1.y = pv.1.y := by
  simp only [resolveObstacle]
  split_ifs <;> rfl

/-- After one pass of the per-obstacle resolver the position is never both
vertically overlapping and strictly inside the inflated footprint of that
obstacle. -/
theorem resolveObstacle_not_inside (playerHeight : ℝ) (pv : Vec3 ℝ × Vec3 ℝ) (o : Aabb ℝ) :
    ¬(overlapsVertically o (resolveObstacle playerHeight pv o).1 playerHeight ∧
      insideInflatedFootprint o (resolveObstacle playerHeight pv o).1) := by
  simp only [resolveObstacle]
  split_ifs with hv hsep h1 h2 h3
  · rintro ⟨_, hin⟩
    rcases hsep with h | h | h | h <;>
      [exact absurd hin.1 (not_lt.mpr h); exact absurd hin.2.1 (not_lt.mpr h);
       exact absurd hin.2.2.1 (not_lt.mpr h); exact absurd hin.2.2.2 (not_lt.mpr h)]
  · rintro ⟨_, hin⟩
    exact lt_irrefl _ hin.1
  · rintro ⟨_, hin⟩
    exact lt_irrefl _ hin.2.1
  · rintro ⟨_, hin⟩
    exact lt_irrefl _ hin.2.2.1
  · rintro ⟨_, hin⟩
    exact lt_irrefl _ hin.2.2.2
  · rintro ⟨hov, _⟩
    exact hv hov

/-- C5: with a single obstacle, the position stepPlayerMovement returns is
never strictly inside the obstacle's radius-inflated footprint while the
player's vertical span overlaps the obstacle's y range; and whenever an
integrated position is inside while overlapping, the resolver pushes it to
the nearest inflated face along the axis of minimum penetration and clamps
away the velocity component opposing that push. -/
theorem stepPlayerMovement_collision_containment (state : PlayerBodyState)
    (input : InputState) (dt : ℝ) (bounds : ArenaBounds) (obstacle : Aabb ℝ) :
    (¬(overlapsVertically obstacle
          (stepPlayerMovement state input dt [obstacle] bounds).position
          (if input.crouch then ((PLAYER_HEIGHT_CROUCHING : ℚ) : ℝ)
            else ((PLAYER_HEIGHT_STANDING : ℚ) : ℝ)) ∧
        insideInflatedFootprint obstacle
          (stepPlayerMovement state input dt [obstacle] bounds).position)) ∧
    (∀ (p v : Vec3 ℝ) (playerHeight : ℝ),
      overlapsVertically obstacle p playerHeight → insideInflatedFootprint obstacle p →
      (min (min |p.x - (obstacle.min.x - PLAYER_RADIUS)| |obstacle.max.x + PLAYER_RADIUS - p.x|)
          (min |p.z - (obstacle.min.z - PLAYER_RADIUS)| |obstacle.max.z + PLAYER_RADIUS - p.z|) =
        |p.x - (obstacle.min.x - PLAYER_RADIUS)| ∧
        resolveHorizontalCollisions p v playerHeight [obstacle] =
          ({ p with x := obstacle.min.x - PLAYER_RADIUS }, { v with x := min v.x 0 })) ∨
      (min (min |p.x - (obstacle.min.x - PLAYER_RADIUS)| |obstacle.max.x + PLAYER_RADIUS - p.x|)
          (min |p.z - (obstacle.min.z - PLAYER_RADIUS)| |obstacle.max.z + PLAYER_RADIUS - p.z|) =
        |obstacle.max.x + PLAYER_RADIUS - p.x| ∧
        resolveHorizontalCollisions p v playerHeight [obstacle] =
          ({ p with x := obstacle.max.x + PLAYER_RADIUS }, { v with x := max v.x 0 })) ∨
      (min (min |p.x - (obstacle.min.x - PLAYER_RADIUS)| |obstacle.max.x + PLAYER_RADIUS - p.x|)
          (min |p.z - (obstacle.min.z - PLAYER_RADIUS)| |obstacle.max.z + PLAYER_RADIUS - p.z|) =
        |p.z - (obstacle.min.z - PLAYER_RADIUS)| ∧
        resolveHorizontalCollisions p v playerHeight [obstacle] =
          ({ p with z := obstacle.min.z - PLAYER_RADIUS }, { v with z := min v.z 0 })) ∨
      (min (min |p.x - (obstacle.min.x - PLAYER_RADIUS)| |obstacle.max.x + PLAYER_RADIUS - p.x|)
          (min |p.z - (obstacle.min.z - PLAYER_RADIUS)| |obstacle.max.z + PLAYER_RADIUS - p.z|) =
        |obstacle.max.z + PLAYER_RADIUS - p.z| ∧
        resolveHorizontalCollisions p v playerHeight [obstacle] =
          ({ p with z := obstacle.max.z + PLAYER_RADIUS }, { v with z := max v.z 0 }))) := by
  constructor
  · exact resolveObstacle_not_inside _ _ obstacle
  · intro p v playerHeight hov hin
    have hres : resolveHorizontalCollisions p v playerHeight [obstacle] =
        resolveObstacle playerHeight (p, v) obstacle := rfl
    rw [hres]
    have hnsep : ¬(p.x ≤ obstacle.min.x - PLAYER_RADIUS ∨
        p.x ≥ obstacle.max.x + PLAYER_RADIUS ∨
        p.z ≤ obstacle.min.z - PLAYER_RADIUS ∨ p.z ≥ obstacle.max.z + PLAYER_RADIUS) := by
      rintro (h | h | h | h)
      · exact absurd hin.1 (not_lt.mpr h)
      · exact absurd hin.2.1 (not_lt.mpr h)
      · exact absurd hin.2.2.1 (not_lt.mpr h)
      · exact absurd hin.2.2.2 (not_lt.mpr h)
    simp only [resolveObstacle]
    rw [if_pos (show p.y < obstacle.max.y ∧ p.y + playerHeight > obstacle.min.y from hov),
      if_neg hnsep]
    split_ifs with h1 h2 h3
    · exact Or.inl ⟨h1, rfl⟩
    · exact Or.inr (Or.inl ⟨h2, rfl⟩)
    · exact Or.inr (Or.inr (Or.inl ⟨h3, rfl⟩))
    · refine Or.inr (Or.inr (Or.inr ⟨?_, rfl⟩))
      rcases min_choice
          (min |p.x - (obstacle.min.x - PLAYER_RADIUS)| |obstacle.max.x + PLAYER_RADIUS - p.x|)
          (min |p.z - (obstacle.min.z - PLAYER_RADIUS)|
            |obstacle.max.z + PLAYER_RADIUS - p.z|) with hm | hm
      · rcases min_choice |p.x - (obstacle.min.x - PLAYER_RADIUS)|
            |obstacle.max.x + PLAYER_RADIUS - p.x| with h4 | h4
        · exact absurd (hm.trans h4) h1
        · exact absurd (hm.trans h4) h2
      · rcases min_choice |p.z - (obstacle.min.z - PLAYER_RADIUS)|
            |obstacle.max.z + PLAYER_RADIUS - p.z| with h4 | h4
        · exact absurd (hm.trans h4) h3
        · exact hm.trans h4

/-- C8: in every call to stepPlayerMovement, a grounded jump request
without crouch sets the vertical velocity to the fixed jump velocity and
clears grounded, any other case subtracts gravity times dt from it; the
integrated position is the old position plus the new velocity times dt with
x and z clamped to the arena bounds inset by the player radius; a position
below the floor plane is snapped to the floor with the vertical velocity
zeroed and grounded set; the integrated position and velocity then pass
through the obstacle resolver, and with no obstacles they are returned
as is. -/
theorem stepPlayerMovement_integration_spec (state : PlayerBodyState) (input : InputState)
    (dt : ℝ) (obstacles : List (Aabb ℝ)) (bounds : ArenaBounds) :
    let jumpNow := state.grounded = true ∧ input.jump = true ∧ input.crouch = false
    let velX := nextVelocityX state input dt
    let velZ := nextVelocityZ state input dt
    let velY0 := if jumpNow then JUMP_VELOCITY else state.velocity.y - GRAVITY * dt
    let posX := clamp (state.position.x + velX * dt) (bounds.minX + PLAYER_RADIUS)
      (bounds.maxX - PLAYER_RADIUS)
    let posY0 := state.position.y + velY0 * dt
    let posZ := clamp (state.position.z + velZ * dt) (bounds.minZ + PLAYER_RADIUS)
      (bounds.maxZ - PLAYER_RADIUS)
    let posY := if posY0 < bounds.floorY then bounds.floorY else posY0
    let velY := if posY0 < bounds.floorY then 0 else velY0
    let groundedNext := if posY0 < bounds.floorY then true
      else if jumpNow then false else state.grounded
    let playerHeight : ℝ := if input.crouch = true then ((PLAYER_HEIGHT_CROUCHING : ℚ) : ℝ)
      else ((PLAYER_HEIGHT_STANDING : ℚ) : ℝ)
    stepPlayerMovement state input dt obstacles bounds =
      { state with
          position := (resolveHorizontalCollisions { x := posX, y := posY, z := posZ }
            { x := velX, y := velY, z := velZ } playerHeight obstacles).1
          velocity := (resolveHorizontalCollisions { x := posX, y := posY, z := posZ }
            { x := velX, y := velY, z := velZ } playerHeight obstacles).2
          grounded := groundedNext
          crouching := input.crouch } ∧
    (stepPlayerMovement state input dt [] bounds).position =
      { x := posX, y := posY, z := posZ } ∧
    (stepPlayerMovement state input dt [] bounds).velocity =
      { x := velX, y := velY, z := velZ } := by
  cases hg : state.grounded <;> cases hj : input.jump <;> cases hc : input.crouch <;>
    simp [stepPlayerMovement, resolveHorizontalCollisions, hg, hj, hc]

/-! ## Concrete evaluations validating the embedding
The pistol at 5 meters scores round(31 * 0.91) = 28 body damage, and that
raw damage against a fresh (100, 100) defender with the pistol's 0.57
penetration spends 28 * 0.43 * 0.65 = 7.826 armor, matching the spec's
end-to-end scenario; the rolling hash of the code units of "ab" is
97 * 31 + 98 = 3105.
-/

example : computeWeaponDamage .pistol 5 false = 28 := by
  rw [show computeWeaponDamage .pistol 5 false =
    max 1 (jsRound ((31 : ℚ) * max 0.28 (1 - 5 * 0.018) * 1)) from rfl]
  rw [show (31 : ℚ) * max 0.28 (1 - 5 * 0.018) * 1 = 28.21 by norm_num]
  rw [show jsRound 28.21 = 28 by rw [jsRound, Int.floor_eq_iff]; norm_num]
  norm_num

example : (applyDamage { health := 100, armor := 100 } 28 0.57).armor = 92.174 := by
  norm_num [applyDamage, clamp]

example : (applyDamage { health := 100, armor := 100 } 28 0.57).health = 76.3043 := by
  norm_num [applyDamage, clamp]

example : hashString [97, 98] = 3105 := by decide

example : (tryFireWeapon
    { weaponId := .pistol, ammoInMag := 15, ammoReserve := 60,
      lastShotAt := 0, reloadingUntil := none } 1000).next.ammoInMag = 14 := by
  norm_num [tryFireWeapon, WEAPONS]
